import Mathlib

/-!
Shallow embedding of the embedding-collection planning layer of HugeCTR
(`src/HugeCTR/embedding/common.hpp`): the `EmbeddingCollectionParam`
lookup-grouping loop of the constructor, its shard queries
(`lookup_id_in_group`, `has_table_shard`, `get_table_shard_id`), and
`WgradAttr::get_unique_table_ids`, together with theorems settling the
spec claims about them.

Machine integers are embedded as `Nat`/`Int` (no index in this layer can
overflow in the configurations the theorems quantify over).  The
`core23` tensor/data-type plumbing carried by `EmbeddingCollectionParam`
is an external collaborator (spec section 1) and is not part of the
logic modelled here, so those fields are omitted from the record.
-/

namespace embedding

/-- Embeds `enum class Combiner : char { Sum, Average, Concat }`
(common.hpp:126).  The C++ type has underlying type `char`, so values
outside the three enumerators are representable; we embed it as an
integer code with the enumerators `0`, `1`, `2`. -/
abbrev Combiner := Int

def Combiner.Sum : Combiner := 0

def Combiner.Average : Combiner := 1

def Combiner.Concat : Combiner := 2

/-- Embeds `enum class DenseCompressionStrategy : int8_t { Unique, CacheFrequent }`
(common.hpp:144), underlying type `int8_t`, enumerators `0`, `1`. -/
abbrev DenseCompressionStrategy := Int

def DenseCompressionStrategy.Unique : DenseCompressionStrategy := 0

def DenseCompressionStrategy.CacheFrequent : DenseCompressionStrategy := 1

/-- Embeds `enum class TablePlacementStrategy : int8_t` (common.hpp:129). -/
inductive TablePlacementStrategy : Type
  | DataParallel
  | ModelParallel
deriving DecidableEq, Repr

/-- Embeds `enum class EmbeddingLayout : int8_t` (common.hpp:133). -/
inductive EmbeddingLayout : Type
  | FeatureMajor
  | BatchMajor
deriving DecidableEq, Repr

/-- Embeds `enum class CommunicationStrategy : int8_t` (common.hpp:135). -/
inductive CommunicationStrategy : Type
  | Uniform
  | Hierarchical
deriving DecidableEq, Repr

/-- Embeds `enum class SortStrategy : int8_t` (common.hpp:137). -/
inductive SortStrategy : Type
  | Radix
  | Segmented
deriving DecidableEq, Repr

/-- Embeds `enum class KeysPreprocessStrategy : int8_t` (common.hpp:139). -/
inductive KeysPreprocessStrategy : Type
  | None
  | AddOffset
deriving DecidableEq, Repr

/-- Embeds `enum class AllreduceStrategy : int8_t` (common.hpp:141). -/
inductive AllreduceStrategy : Type
  | Sparse
  | Dense
  | GroupDense
deriving DecidableEq, Repr

/-- Embeds `enum class EmbeddingType : int8_t` (common.hpp:143). -/
inductive EmbeddingType : Type
  | Sparse
  | Dense
  | FrequentDense
  | InfrequentDense
deriving DecidableEq, Repr

/-- Embeds `struct LookupParam` (common.hpp:146-159). -/
structure LookupParam where
  lookup_id : Nat
  table_id : Nat
  combiner : Combiner
  max_hotness : Nat
  ev_size : Nat
deriving DecidableEq, Repr

instance : Inhabited LookupParam := ⟨⟨0, 0, Combiner.Sum, 0, 0⟩⟩

/-- Embeds `struct GroupedTableParam` (common.hpp:162-169). -/
structure GroupedTableParam where
  table_placement_strategy : TablePlacementStrategy
  table_ids : List Nat
deriving DecidableEq, Repr

instance : Inhabited GroupedTableParam := ⟨⟨TablePlacementStrategy.DataParallel, []⟩⟩

/-- Embeds `struct GroupedLookupParam` (common.hpp:171-183);
`grouped_table_idx = -1` means "lookup in local cache". -/
structure GroupedLookupParam where
  grouped_table_idx : Int
  table_placement_strategy : TablePlacementStrategy
  lookup_ids : List Nat
  embedding_type : EmbeddingType
deriving DecidableEq, Repr

instance : Inhabited GroupedLookupParam :=
  ⟨⟨0, TablePlacementStrategy.DataParallel, [], EmbeddingType.Sparse⟩⟩

/-- Embeds the inner lookup-partition loop of the `EmbeddingCollectionParam`
constructor (common.hpp:251-265): scan the given lookup ids in order; skip a
lookup whose table is not in `table_ids`; append a `Concat` lookup to the dense
list and a `Sum`/`Average` lookup to the sparse list; any other combiner value
throws `"combiner not supported in embedding collection."`. -/
def partition_group_lookups (lookup_params : List LookupParam) (table_ids : List Nat) :
    List Nat → Except String (List Nat × List Nat)
  | [] => Except.ok ([], [])
  | lookup_id :: rest =>
    let lp := lookup_params.getD lookup_id default
    if lp.table_id ∈ table_ids then
      if lp.combiner = Combiner.Concat then
        match partition_group_lookups lookup_params table_ids rest with
        | Except.ok (s, d) => Except.ok (s, lookup_id :: d)
        | Except.error e => Except.error e
      else if lp.combiner = Combiner.Sum ∨ lp.combiner = Combiner.Average then
        match partition_group_lookups lookup_params table_ids rest with
        | Except.ok (s, d) => Except.ok (lookup_id :: s, d)
        | Except.error e => Except.error e
      else
        Except.error "combiner not supported in embedding collection."
    else
      partition_group_lookups lookup_params table_ids rest

/-- Embeds the table-group loop of the `EmbeddingCollectionParam` constructor
(common.hpp:244-284), parameterized by the value of the member
`dense_compression_strategy_` that the loop body reads: for each
`GroupedTableParam` in order, partition the lookups, emit a `Sparse` group when
sparse lookups exist, and for dense lookups emit one `Dense` group under
`Unique`, an `InfrequentDense` plus a `FrequentDense` group (index `-1`) under
`CacheFrequent`, and throw for any other strategy value. -/
def build_grouped_lookup_params (strategy : DenseCompressionStrategy) (num_lookup : Nat)
    (lookup_params : List LookupParam) :
    Nat → List GroupedTableParam → Except String (List GroupedLookupParam)
  | _, [] => Except.ok []
  | grouped_table_id, table_param :: rest =>
    match partition_group_lookups lookup_params table_param.table_ids
        (List.range num_lookup) with
    | Except.error e => Except.error e
    | Except.ok (sparse_lookup_ids, dense_lookup_ids) =>
      let sparse_groups : List GroupedLookupParam :=
        if sparse_lookup_ids = [] then []
        else [⟨(grouped_table_id : Int), table_param.table_placement_strategy,
               sparse_lookup_ids, EmbeddingType.Sparse⟩]
      let dense_groups : Except String (List GroupedLookupParam) :=
        if dense_lookup_ids = [] then Except.ok []
        else if strategy = DenseCompressionStrategy.Unique then
          Except.ok [⟨(grouped_table_id : Int), table_param.table_placement_strategy,
                      dense_lookup_ids, EmbeddingType.Dense⟩]
        else if strategy = DenseCompressionStrategy.CacheFrequent then
          Except.ok [⟨(grouped_table_id : Int), table_param.table_placement_strategy,
                      dense_lookup_ids, EmbeddingType.InfrequentDense⟩,
                     ⟨-1, table_param.table_placement_strategy,
                      dense_lookup_ids, EmbeddingType.FrequentDense⟩]
        else Except.error "dense_compression_strategy not supported in embedding collection."
      match dense_groups with
      | Except.error e => Except.error e
      | Except.ok dgs =>
        match build_grouped_lookup_params strategy num_lookup lookup_params
            (grouped_table_id + 1) rest with
        | Except.error e => Except.error e
        | Except.ok tail => Except.ok (sparse_groups ++ dgs ++ tail)

/-- Embeds `struct EmbeddingCollectionParam` (common.hpp:190-316).  The
`core23::DataType` tags and `DenseFrequentKeysData` tensors belong to the
excluded tensor abstraction and are omitted; every field the modelled
operations read is present. -/
structure EmbeddingCollectionParam where
  num_table : Nat
  num_lookup : Nat
  lookup_params : List LookupParam
  shard_matrix : List (List Int)  -- num_gpus * num_table
  grouped_table_params : List GroupedTableParam
  grouped_lookup_params : List GroupedLookupParam
  universal_batch_size : Nat
  input_layout_ : EmbeddingLayout
  output_layout_ : EmbeddingLayout
  sort_strategy_ : SortStrategy
  keys_preprocess_strategy_ : KeysPreprocessStrategy
  allreduce_strategy_ : AllreduceStrategy
  comm_strategy_ : CommunicationStrategy
  dense_compression_strategy_ : DenseCompressionStrategy
deriving Repr

/-- Modelled from the spec in one respect: the provided constructor
(common.hpp:218-285) runs its grouping loop while the member
`dense_compression_strategy_` still has its default initializer value
`Unique` (common.hpp:215), and the repository code that selects
`CacheFrequent` is outside the provided sources.  Spec section 4.1 lists
the dense-compression strategy among the construction inputs, so this
variant takes the strategy the grouping loop reads as an argument; the
constructor as written is `construct` below, which fixes it to `Unique`. -/
def EmbeddingCollectionParam.constructWithStrategy
    (strategy : DenseCompressionStrategy)
    (num_table num_lookup : Nat) (lookup_params : List LookupParam)
    (shard_matrix : List (List Int)) (grouped_table_params : List GroupedTableParam)
    (universal_batch_size : Nat)
    (input_layout output_layout : EmbeddingLayout) (sort_strategy : SortStrategy)
    (keys_preprocess_strategy : KeysPreprocessStrategy)
    (allreduce_strategy : AllreduceStrategy)
    (comm_strategy : CommunicationStrategy) :
    Except String EmbeddingCollectionParam :=
  match build_grouped_lookup_params strategy num_lookup lookup_params 0
      grouped_table_params with
  | Except.error e => Except.error e
  | Except.ok glp =>
    Except.ok
      { num_table := num_table
        num_lookup := num_lookup
        lookup_params := lookup_params
        shard_matrix := shard_matrix
        grouped_table_params := grouped_table_params
        grouped_lookup_params := glp
        universal_batch_size := universal_batch_size
        input_layout_ := input_layout
        output_layout_ := output_layout
        sort_strategy_ := sort_strategy
        keys_preprocess_strategy_ := keys_preprocess_strategy
        allreduce_strategy_ := allreduce_strategy
        comm_strategy_ := comm_strategy
        dense_compression_strategy_ := strategy }

/-- Embeds the `EmbeddingCollectionParam` constructor exactly as written
(common.hpp:218-285): the grouping loop runs with the default member value
`dense_compression_strategy_ = DenseCompressionStrategy::Unique`
(common.hpp:215). -/
def EmbeddingCollectionParam.construct
    (num_table num_lookup : Nat) (lookup_params : List LookupParam)
    (shard_matrix : List (List Int)) (grouped_table_params : List GroupedTableParam)
    (universal_batch_size : Nat)
    (input_layout output_layout : EmbeddingLayout) (sort_strategy : SortStrategy)
    (keys_preprocess_strategy : KeysPreprocessStrategy)
    (allreduce_strategy : AllreduceStrategy)
    (comm_strategy : CommunicationStrategy) :
    Except String EmbeddingCollectionParam :=
  EmbeddingCollectionParam.constructWithStrategy DenseCompressionStrategy.Unique
    num_table num_lookup lookup_params shard_matrix grouped_table_params
    universal_batch_size input_layout output_layout sort_strategy
    keys_preprocess_strategy allreduce_strategy comm_strategy

/-- Embeds `EmbeddingCollectionParam::lookup_id_in_group` (common.hpp:287-291):
membership of `lookup_id` in the `lookup_ids` of grouped lookup param
`grouped_id`. -/
def EmbeddingCollectionParam.lookup_id_in_group (p : EmbeddingCollectionParam)
    (grouped_id : Nat) (lookup_id : Nat) : Bool :=
  decide (lookup_id ∈ (p.grouped_lookup_params.getD grouped_id default).lookup_ids)

/-- Embeds `EmbeddingCollectionParam::has_table_shard` (common.hpp:293-297):
true iff the lookup is in the group and the shard-matrix entry for
(`gpu_id`, table of the lookup) is nonzero. -/
def EmbeddingCollectionParam.has_table_shard (p : EmbeddingCollectionParam)
    (gpu_id : Nat) (grouped_id : Nat) (lookup_id : Nat) : Bool :=
  let table_id := (p.lookup_params.getD lookup_id default).table_id
  let has_portion := decide ((p.shard_matrix.getD gpu_id []).getD table_id 0 ≠ 0)
  p.lookup_id_in_group grouped_id lookup_id && has_portion

/-- The ascending list of device indices whose shard-matrix entry for
`table_id` equals `1`: the list `shard_gpus` that
`EmbeddingCollectionParam::get_table_shard_id` builds (common.hpp:302-307). -/
def shardGpus (p : EmbeddingCollectionParam) (table_id : Nat) : List Nat :=
  (List.range p.shard_matrix.length).filter
    (fun ggpu_id => decide ((p.shard_matrix.getD ggpu_id []).getD table_id 0 = 1))

/-- Embeds `EmbeddingCollectionParam::get_table_shard_id` (common.hpp:299-313).
The C++ fatal check `HCTR_CHECK_HINT(..., "get_table_shard_id does not find
shard id")` is embedded as `none`; a found shard returns
`some (shard_id, num_shard)`. -/
def EmbeddingCollectionParam.get_table_shard_id (p : EmbeddingCollectionParam)
    (gpu_id : Nat) (table_id : Nat) : Option (Nat × Nat) :=
  let shard_gpus := shardGpus p table_id
  if gpu_id ∈ shard_gpus then
    some (shard_gpus.indexOf gpu_id, shard_gpus.length)
  else none

/-- Embeds `struct WgradAttr` (common.hpp:383-403); the tensor fields hold the
same integer sequences as their host mirrors, so they are embedded as lists. -/
structure WgradAttr where
  num_table : Nat
  num_lookup : Nat
  lookup_id_to_table_ids : List Nat
  sorted_lookup_ids : List Nat
  sorted_table_ids : List Nat
  sorted_unique_table_ids : List Nat
  table_id_to_ev_size : List Nat
  is_same_ev_size : Bool
  same_ev_size : Nat
deriving DecidableEq, Repr

/-- Embeds `WgradAttr::get_unique_table_ids` (common.hpp:400-402):
the per-lookup mapping when `num_table == num_lookup`, else the
sorted deduplicated list. -/
def WgradAttr.get_unique_table_ids (w : WgradAttr) : List Nat :=
  if w.num_table = w.num_lookup then w.lookup_id_to_table_ids
  else w.sorted_unique_table_ids

/-- Modelled from the spec: `WgradAttr::init` is only declared in the provided
sources (common.hpp:397-398); its definition lives elsewhere in the repository.
Spec section 4.3: given the per-lookup table ids of the group (`group_table_ids`,
index = lookup id within the group) and the per-table vector size, it builds
the lookup-to-table array, sorts lookup ids together with their table ids by
table id (stable, tie-break by original lookup id), deduplicates the sorted
table ids into the sorted unique list, records per-unique-table vector sizes,
and sets `is_same_ev_size`/`same_ev_size` from whether all those vector sizes
agree; `num_lookup` counts the lookups of the group and `num_table` its unique
tables. -/
def WgradAttr.initSpec (group_table_ids : List Nat) (table_ev_size : Nat → Nat) :
    WgradAttr :=
  let sorted_pairs :=
    ((List.range group_table_ids.length).zip group_table_ids).mergeSort
      (fun a b => decide (a.2 ≤ b.2))
  let sorted_tables := sorted_pairs.map Prod.snd
  let sorted_unique := sorted_tables.dedup
  let ev_sizes := sorted_unique.map table_ev_size
  let same := decide (∀ s ∈ ev_sizes, s = ev_sizes.headD 0)
  { num_table := sorted_unique.length
    num_lookup := group_table_ids.length
    lookup_id_to_table_ids := group_table_ids
    sorted_lookup_ids := sorted_pairs.map Prod.fst
    sorted_table_ids := sorted_tables
    sorted_unique_table_ids := sorted_unique
    table_id_to_ev_size := ev_sizes
    is_same_ev_size := same
    same_ev_size := if same then ev_sizes.headD 0 else 0 }

/-! Derived views of the grouping loop, used to state and prove the claims. -/

/-- Table id of lookup `i` as the constructor loop reads it (common.hpp:252). -/
def lookupTableId (lookup_params : List LookupParam) (i : Nat) : Nat :=
  (lookup_params.getD i default).table_id

/-- Combiner of lookup `i` as the constructor loop reads it (common.hpp:256). -/
def lookupCombiner (lookup_params : List LookupParam) (i : Nat) : Combiner :=
  (lookup_params.getD i default).combiner

/-- The combiner values the constructor accepts (common.hpp:257-264). -/
def combiner_supported (c : Combiner) : Bool :=
  decide (c = Combiner.Sum ∨ c = Combiner.Average ∨ c = Combiner.Concat)

/-- Combiners routed to the sparse list (common.hpp:259). -/
def isSparseCombiner (c : Combiner) : Bool :=
  decide (c = Combiner.Sum ∨ c = Combiner.Average)

/-- Predicate satisfied by the lookup ids the loop puts in `sparse_lookup_ids`. -/
def sparsePred (lookup_params : List LookupParam) (table_ids : List Nat) (i : Nat) : Bool :=
  decide (lookupTableId lookup_params i ∈ table_ids) &&
    isSparseCombiner (lookupCombiner lookup_params i)

/-- Predicate satisfied by the lookup ids the loop puts in `dense_lookup_ids`. -/
def densePred (lookup_params : List LookupParam) (table_ids : List Nat) (i : Nat) : Bool :=
  decide (lookupTableId lookup_params i ∈ table_ids) &&
    decide (lookupCombiner lookup_params i = Combiner.Concat)

/-- The sparse lookup ids the partition loop collects for one table group. -/
def sparseIdsOf (lookup_params : List LookupParam) (num_lookup : Nat)
    (table_ids : List Nat) : List Nat :=
  (List.range num_lookup).filter (sparsePred lookup_params table_ids)

/-- The dense lookup ids the partition loop collects for one table group. -/
def denseIdsOf (lookup_params : List LookupParam) (num_lookup : Nat)
    (table_ids : List Nat) : List Nat :=
  (List.range num_lookup).filter (densePred lookup_params table_ids)

/-- The grouped lookup params one table group contributes on the success path:
a `Sparse` group when sparse lookups exist, then the dense group(s) demanded by
the compression strategy (common.hpp:266-283). -/
def groupsForTable (strategy : DenseCompressionStrategy) (num_lookup : Nat)
    (lookup_params : List LookupParam) (grouped_table_id : Nat)
    (table_param : GroupedTableParam) : List GroupedLookupParam :=
  let sparse := sparseIdsOf lookup_params num_lookup table_param.table_ids
  let dense := denseIdsOf lookup_params num_lookup table_param.table_ids
  (if sparse = [] then []
   else [⟨(grouped_table_id : Int), table_param.table_placement_strategy,
          sparse, EmbeddingType.Sparse⟩]) ++
  (if dense = [] then []
   else if strategy = DenseCompressionStrategy.Unique then
     [⟨(grouped_table_id : Int), table_param.table_placement_strategy,
       dense, EmbeddingType.Dense⟩]
   else [⟨(grouped_table_id : Int), table_param.table_placement_strategy,
          dense, EmbeddingType.InfrequentDense⟩,
         ⟨-1, table_param.table_placement_strategy,
          dense, EmbeddingType.FrequentDense⟩])

/-- The full grouped-lookup-param list the constructor produces on the success
path, table group by table group. -/
def builtGroups (strategy : DenseCompressionStrategy) (num_lookup : Nat)
    (lookup_params : List LookupParam) :
    Nat → List GroupedTableParam → List GroupedLookupParam
  | _, [] => []
  | grouped_table_id, table_param :: rest =>
    groupsForTable strategy num_lookup lookup_params grouped_table_id table_param ++
      builtGroups strategy num_lookup lookup_params (grouped_table_id + 1) rest

/-- The configuration condition under which the grouping loop of the constructor
runs to completion: every lookup whose table belongs to a table group has a
supported combiner, and when it is a `Concat` lookup the dense-compression
strategy is `Unique` or `CacheFrequent`. -/
def groupCondition (strategy : DenseCompressionStrategy) (num_lookup : Nat)
    (lookup_params : List LookupParam) (gtps : List GroupedTableParam) : Prop :=
  ∀ tp ∈ gtps, ∀ i : Nat, i < num_lookup → lookupTableId lookup_params i ∈ tp.table_ids →
    combiner_supported (lookupCombiner lookup_params i) = true ∧
    (lookupCombiner lookup_params i = Combiner.Concat →
      strategy = DenseCompressionStrategy.Unique ∨
        strategy = DenseCompressionStrategy.CacheFrequent)

/-! Concrete fixtures used by the witnesses. -/

/-- A three-device, one-table configuration whose shard matrix places shards
(entry `1`) on devices `0` and `2`. -/
def shardRankParam : EmbeddingCollectionParam :=
  { num_table := 1, num_lookup := 1,
    lookup_params := [⟨0, 0, Combiner.Sum, 1, 4⟩],
    shard_matrix := [[1], [0], [1]],
    grouped_table_params := [⟨TablePlacementStrategy.ModelParallel, [0]⟩],
    grouped_lookup_params :=
      [⟨0, TablePlacementStrategy.ModelParallel, [0], EmbeddingType.Sparse⟩],
    universal_batch_size := 4,
    input_layout_ := EmbeddingLayout.FeatureMajor,
    output_layout_ := EmbeddingLayout.FeatureMajor,
    sort_strategy_ := SortStrategy.Radix,
    keys_preprocess_strategy_ := KeysPreprocessStrategy.None,
    allreduce_strategy_ := AllreduceStrategy.Dense,
    comm_strategy_ := CommunicationStrategy.Uniform,
    dense_compression_strategy_ := DenseCompressionStrategy.Unique }

/-- A two-device, one-table configuration whose shard matrix holds the
non-boolean entry `2` for device `0` and the entry `1` for device `1`. -/
def divergenceParam : EmbeddingCollectionParam :=
  { num_table := 1, num_lookup := 1,
    lookup_params := [⟨0, 0, Combiner.Sum, 1, 4⟩],
    shard_matrix := [[2], [1]],
    grouped_table_params := [⟨TablePlacementStrategy.ModelParallel, [0]⟩],
    grouped_lookup_params :=
      [⟨0, TablePlacementStrategy.ModelParallel, [0], EmbeddingType.Sparse⟩],
    universal_batch_size := 4,
    input_layout_ := EmbeddingLayout.FeatureMajor,
    output_layout_ := EmbeddingLayout.FeatureMajor,
    sort_strategy_ := SortStrategy.Radix,
    keys_preprocess_strategy_ := KeysPreprocessStrategy.None,
    allreduce_strategy_ := AllreduceStrategy.Dense,
    comm_strategy_ := CommunicationStrategy.Uniform,
    dense_compression_strategy_ := DenseCompressionStrategy.Unique }

/-- The lookup list of the CacheFrequent scenario of the spec: three tables, two
`Concat` lookups (tables 0 and 1) and one `Sum` lookup (table 2). -/
def cacheFrequentLookups : List LookupParam :=
  [⟨0, 0, Combiner.Concat, 1, 8⟩, ⟨1, 1, Combiner.Concat, 1, 8⟩,
   ⟨2, 2, Combiner.Sum, 1, 8⟩]

/-- The lookup list of the C1 witness configuration. -/
def partitionWitnessLookups : List LookupParam :=
  [⟨0, 0, Combiner.Sum, 1, 4⟩, ⟨1, 1, Combiner.Concat, 1, 4⟩]

/-- The table groups of the C1 witness configuration. -/
def partitionWitnessGroups : List GroupedTableParam :=
  [⟨TablePlacementStrategy.DataParallel, [0]⟩,
   ⟨TablePlacementStrategy.ModelParallel, [1]⟩]

/-- The table groups of the C8 witness configuration: the table `5` of the first group
is referenced by no lookup. -/
def emptyGroupWitnessGroups : List GroupedTableParam :=
  [⟨TablePlacementStrategy.DataParallel, [5]⟩,
   ⟨TablePlacementStrategy.DataParallel, [0]⟩]

theorem mem_sparseIdsOf {lookup_params : List LookupParam} {num_lookup : Nat}
    {table_ids : List Nat} {i : Nat} :
    i ∈ sparseIdsOf lookup_params num_lookup table_ids ↔
      i < num_lookup ∧ lookupTableId lookup_params i ∈ table_ids ∧
        isSparseCombiner (lookupCombiner lookup_params i) = true := by
  simp [sparseIdsOf, sparsePred, List.mem_filter, List.mem_range, and_assoc]

theorem mem_denseIdsOf {lookup_params : List LookupParam} {num_lookup : Nat}
    {table_ids : List Nat} {i : Nat} :
    i ∈ denseIdsOf lookup_params num_lookup table_ids ↔
      i < num_lookup ∧ lookupTableId lookup_params i ∈ table_ids ∧
        lookupCombiner lookup_params i = Combiner.Concat := by
  simp [denseIdsOf, densePred, List.mem_filter, List.mem_range, and_assoc]

theorem partition_cons (lookup_params : List LookupParam) (table_ids : List Nat)
    (lookup_id : Nat) (rest : List Nat) :
    partition_group_lookups lookup_params table_ids (lookup_id :: rest) =
      if lookupTableId lookup_params lookup_id ∈ table_ids then
        if lookupCombiner lookup_params lookup_id = Combiner.Concat then
          match partition_group_lookups lookup_params table_ids rest with
          | Except.ok (s, d) => Except.ok (s, lookup_id :: d)
          | Except.error e => Except.error e
        else if lookupCombiner lookup_params lookup_id = Combiner.Sum ∨
            lookupCombiner lookup_params lookup_id = Combiner.Average then
          match partition_group_lookups lookup_params table_ids rest with
          | Except.ok (s, d) => Except.ok (lookup_id :: s, d)
          | Except.error e => Except.error e
        else
          Except.error "combiner not supported in embedding collection."
      else partition_group_lookups lookup_params table_ids rest := rfl

theorem partition_ok_of_supported (lookup_params : List LookupParam)
    (table_ids : List Nat) :
    ∀ ids : List Nat,
      (∀ i ∈ ids, lookupTableId lookup_params i ∈ table_ids →
        combiner_supported (lookupCombiner lookup_params i) = true) →
      partition_group_lookups lookup_params table_ids ids =
        Except.ok (ids.filter (sparsePred lookup_params table_ids),
                   ids.filter (densePred lookup_params table_ids))
  | [], _ => rfl
  | lookup_id :: rest, h => by
    have hrest := partition_ok_of_supported lookup_params table_ids rest
      (fun i hi => h i (List.mem_cons_of_mem _ hi))
    rw [partition_cons, List.filter_cons, List.filter_cons]
    by_cases htab : lookupTableId lookup_params lookup_id ∈ table_ids
    · have hsupp := h lookup_id (List.mem_cons_self _ _) htab
      rw [if_pos htab]
      by_cases hcc : lookupCombiner lookup_params lookup_id = Combiner.Concat
      · have hs : sparsePred lookup_params table_ids lookup_id = false := by
          simp [sparsePred, isSparseCombiner, hcc, Combiner.Concat, Combiner.Sum,
            Combiner.Average]
        have hd : densePred lookup_params table_ids lookup_id = true := by
          simp [densePred, htab, hcc]
        rw [if_pos hcc, hrest, hs, hd]
        simp
      · have hsp : lookupCombiner lookup_params lookup_id = Combiner.Sum ∨
            lookupCombiner lookup_params lookup_id = Combiner.Average := by
          have := of_decide_eq_true hsupp
          tauto
        have hs : sparsePred lookup_params table_ids lookup_id = true := by
          simp [sparsePred, isSparseCombiner, htab, hsp]
        have hd : densePred lookup_params table_ids lookup_id = false := by
          simp [densePred, hcc]
        rw [if_neg hcc, if_pos hsp, hrest, hs, hd]
        simp
    · have hs : sparsePred lookup_params table_ids lookup_id = false := by
        simp [sparsePred, htab]
      have hd : densePred lookup_params table_ids lookup_id = false := by
        simp [densePred, htab]
      rw [if_neg htab, hrest, hs, hd]
      simp

theorem supported_of_partition_ok (lookup_params : List LookupParam)
    (table_ids : List Nat) :
    ∀ ids : List Nat, ∀ sd : List Nat × List Nat,
      partition_group_lookups lookup_params table_ids ids = Except.ok sd →
      ∀ i ∈ ids, lookupTableId lookup_params i ∈ table_ids →
        combiner_supported (lookupCombiner lookup_params i) = true
  | [], _, _ => by intro i hi; exact absurd hi (List.not_mem_nil i)
  | lookup_id :: rest, sd, hok => by
    intro i hi htab
    rw [partition_cons] at hok
    rcases List.mem_cons.1 hi with hIeq | hImem
    · subst hIeq
      rw [if_pos htab] at hok
      by_cases hcc : lookupCombiner lookup_params i = Combiner.Concat
      · simp [combiner_supported, hcc]
      · by_cases hsp : lookupCombiner lookup_params i = Combiner.Sum ∨
            lookupCombiner lookup_params i = Combiner.Average
        · simp only [combiner_supported, decide_eq_true_eq]
          tauto
        · rw [if_neg hcc, if_neg hsp] at hok
          exact absurd hok (by simp)
    · by_cases htab0 : lookupTableId lookup_params lookup_id ∈ table_ids
      · rw [if_pos htab0] at hok
        by_cases hcc : lookupCombiner lookup_params lookup_id = Combiner.Concat
        · rw [if_pos hcc] at hok
          cases hrec : partition_group_lookups lookup_params table_ids rest with
          | ok sd0 =>
            exact supported_of_partition_ok lookup_params table_ids rest sd0 hrec i hImem htab
          | error e => rw [hrec] at hok; exact absurd hok (by simp)
        · by_cases hsp : lookupCombiner lookup_params lookup_id = Combiner.Sum ∨
              lookupCombiner lookup_params lookup_id = Combiner.Average
          · rw [if_neg hcc, if_pos hsp] at hok
            cases hrec : partition_group_lookups lookup_params table_ids rest with
            | ok sd0 =>
              exact supported_of_partition_ok lookup_params table_ids rest sd0 hrec i hImem htab
            | error e => rw [hrec] at hok; exact absurd hok (by simp)
          · rw [if_neg hcc, if_neg hsp] at hok
            exact absurd hok (by simp)
      · rw [if_neg htab0] at hok
        exact supported_of_partition_ok lookup_params table_ids rest sd hok i hImem htab

theorem build_ok_of_cond (strategy : DenseCompressionStrategy) (num_lookup : Nat)
    (lookup_params : List LookupParam) :
    ∀ (gtps : List GroupedTableParam) (gid : Nat),
      groupCondition strategy num_lookup lookup_params gtps →
      build_grouped_lookup_params strategy num_lookup lookup_params gid gtps =
        Except.ok (builtGroups strategy num_lookup lookup_params gid gtps)
  | [], _, _ => rfl
  | tp :: rest, gid, h => by
    have hsupp : ∀ i ∈ List.range num_lookup,
        lookupTableId lookup_params i ∈ tp.table_ids →
        combiner_supported (lookupCombiner lookup_params i) = true :=
      fun i hi ht => (h tp (List.mem_cons_self _ _) i (List.mem_range.1 hi) ht).1
    have hpart := partition_ok_of_supported lookup_params tp.table_ids
      (List.range num_lookup) hsupp
    have hrest := build_ok_of_cond strategy num_lookup lookup_params rest (gid + 1)
      (fun tp0 htp0 => h tp0 (List.mem_cons_of_mem _ htp0))
    simp only [build_grouped_lookup_params, builtGroups, groupsForTable]
    rw [hpart, hrest]
    dsimp only
    by_cases hd : (List.range num_lookup).filter (densePred lookup_params tp.table_ids) = []
    · rw [if_pos hd]
      have hd2 : denseIdsOf lookup_params num_lookup tp.table_ids = [] := hd
      rw [hd2]
      simp [List.append_assoc, sparseIdsOf]
    · rw [if_neg hd]
      have hd2 : ¬ denseIdsOf lookup_params num_lookup tp.table_ids = [] := hd
      obtain ⟨i, hi⟩ := List.exists_mem_of_ne_nil _ hd
      have hi2 : i < num_lookup ∧ lookupTableId lookup_params i ∈ tp.table_ids ∧
          lookupCombiner lookup_params i = Combiner.Concat := mem_denseIdsOf.1 hi
      have hstrat := (h tp (List.mem_cons_self _ _) i hi2.1 hi2.2.1).2 hi2.2.2
      rcases hstrat with hU | hCF
      · rw [if_pos hU, if_neg hd2, if_pos hU]
        simp [List.append_assoc, sparseIdsOf, denseIdsOf]
      · by_cases hUq : strategy = DenseCompressionStrategy.Unique
        · rw [if_pos hUq, if_neg hd2, if_pos hUq]
          simp [List.append_assoc, sparseIdsOf, denseIdsOf]
        · rw [if_neg hUq, if_pos hCF, if_neg hd2, if_neg hUq]
          simp [List.append_assoc, sparseIdsOf, denseIdsOf]

theorem cond_of_build_ok (strategy : DenseCompressionStrategy) (num_lookup : Nat)
    (lookup_params : List LookupParam) :
    ∀ (gtps : List GroupedTableParam) (gid : Nat) (res : List GroupedLookupParam),
      build_grouped_lookup_params strategy num_lookup lookup_params gid gtps =
        Except.ok res →
      groupCondition strategy num_lookup lookup_params gtps
  | [], _, _, _ => by intro tp htp; exact absurd htp (List.not_mem_nil tp)
  | tp :: rest, gid, res, hok => by
    simp only [build_grouped_lookup_params] at hok
    cases hpart : partition_group_lookups lookup_params tp.table_ids
        (List.range num_lookup) with
    | error e => rw [hpart] at hok; exact absurd hok (by simp)
    | ok sd =>
      rw [hpart] at hok
      obtain ⟨s, d⟩ := sd
      have hsupp : ∀ i : Nat, i < num_lookup →
          lookupTableId lookup_params i ∈ tp.table_ids →
          combiner_supported (lookupCombiner lookup_params i) = true :=
        fun i hi ht => supported_of_partition_ok lookup_params tp.table_ids
          (List.range num_lookup) (s, d) hpart i (List.mem_range.2 hi) ht
      have hpart2 := partition_ok_of_supported lookup_params tp.table_ids
        (List.range num_lookup) (fun i hi ht => hsupp i (List.mem_range.1 hi) ht)
      rw [hpart] at hpart2
      simp only [Except.ok.injEq, Prod.mk.injEq] at hpart2
      have hd_eq : d = denseIdsOf lookup_params num_lookup tp.table_ids := hpart2.2
      dsimp only at hok
      -- extract the strategy condition for this table group and the tail success
      have hmain : (∀ i : Nat, i < num_lookup →
            lookupTableId lookup_params i ∈ tp.table_ids →
            lookupCombiner lookup_params i = Combiner.Concat →
            strategy = DenseCompressionStrategy.Unique ∨
              strategy = DenseCompressionStrategy.CacheFrequent) ∧
          ∃ tail, build_grouped_lookup_params strategy num_lookup lookup_params
            (gid + 1) rest = Except.ok tail := by
        by_cases hd : d = []
        · rw [if_pos hd] at hok
          dsimp only at hok
          cases hrest : build_grouped_lookup_params strategy num_lookup lookup_params
              (gid + 1) rest with
          | error e => rw [hrest] at hok; exact absurd hok (by simp)
          | ok tail =>
            refine ⟨fun i hi ht hcc => ?_, ⟨tail, rfl⟩⟩
            have : i ∈ denseIdsOf lookup_params num_lookup tp.table_ids :=
              mem_denseIdsOf.2 ⟨hi, ht, hcc⟩
            rw [← hd_eq, hd] at this
            exact absurd this (List.not_mem_nil i)
        · rw [if_neg hd] at hok
          by_cases hU : strategy = DenseCompressionStrategy.Unique
          · rw [if_pos hU] at hok
            dsimp only at hok
            cases hrest : build_grouped_lookup_params strategy num_lookup lookup_params
                (gid + 1) rest with
            | error e => rw [hrest] at hok; exact absurd hok (by simp)
            | ok tail => exact ⟨fun _ _ _ _ => Or.inl hU, ⟨tail, rfl⟩⟩
          · by_cases hCF : strategy = DenseCompressionStrategy.CacheFrequent
            · rw [if_neg hU, if_pos hCF] at hok
              dsimp only at hok
              cases hrest : build_grouped_lookup_params strategy num_lookup lookup_params
                  (gid + 1) rest with
              | error e => rw [hrest] at hok; exact absurd hok (by simp)
              | ok tail => exact ⟨fun _ _ _ _ => Or.inr hCF, ⟨tail, rfl⟩⟩
            · rw [if_neg hU, if_neg hCF] at hok
              exact absurd hok (by simp)
      obtain ⟨hstrat, tail, hrest⟩ := hmain
      intro tp0 htp0 i hi ht
      rcases List.mem_cons.1 htp0 with heq | hmem
      · subst heq
        exact ⟨hsupp i hi ht, hstrat i hi ht⟩
      · exact cond_of_build_ok strategy num_lookup lookup_params rest (gid + 1) tail
          hrest tp0 hmem i hi ht

theorem build_isOk_iff_cond (strategy : DenseCompressionStrategy) (num_lookup : Nat)
    (lookup_params : List LookupParam) (gtps : List GroupedTableParam) (gid : Nat) :
    (build_grouped_lookup_params strategy num_lookup lookup_params gid gtps).isOk = true ↔
      groupCondition strategy num_lookup lookup_params gtps := by
  constructor
  · intro h
    cases hb : build_grouped_lookup_params strategy num_lookup lookup_params gid gtps with
    | error e => rw [hb] at h; simp [Except.isOk, Except.toBool] at h
    | ok res => exact cond_of_build_ok strategy num_lookup lookup_params gtps gid res hb
  · intro h
    rw [build_ok_of_cond strategy num_lookup lookup_params gtps gid h]
    rfl

theorem construct_ok_grouped (strategy : DenseCompressionStrategy)
    (num_table num_lookup : Nat) (lookup_params : List LookupParam)
    (shard_matrix : List (List Int)) (gtps : List GroupedTableParam)
    (universal_batch_size : Nat) (il ol : EmbeddingLayout) (ss : SortStrategy)
    (kps : KeysPreprocessStrategy) (ars : AllreduceStrategy)
    (cs : CommunicationStrategy) (p : EmbeddingCollectionParam)
    (h : EmbeddingCollectionParam.constructWithStrategy strategy num_table num_lookup
        lookup_params shard_matrix gtps universal_batch_size il ol ss kps ars cs =
      Except.ok p) :
    build_grouped_lookup_params strategy num_lookup lookup_params 0 gtps =
      Except.ok p.grouped_lookup_params := by
  unfold EmbeddingCollectionParam.constructWithStrategy at h
  cases hb : build_grouped_lookup_params strategy num_lookup lookup_params 0 gtps with
  | error e => rw [hb] at h; exact absurd h (by simp)
  | ok glp =>
    rw [hb] at h
    simp only [Except.ok.injEq] at h
    rw [← h]

theorem construct_isOk_eq (strategy : DenseCompressionStrategy)
    (num_table num_lookup : Nat) (lookup_params : List LookupParam)
    (shard_matrix : List (List Int)) (gtps : List GroupedTableParam)
    (universal_batch_size : Nat) (il ol : EmbeddingLayout) (ss : SortStrategy)
    (kps : KeysPreprocessStrategy) (ars : AllreduceStrategy)
    (cs : CommunicationStrategy) :
    (EmbeddingCollectionParam.constructWithStrategy strategy num_table num_lookup
        lookup_params shard_matrix gtps universal_batch_size il ol ss kps ars cs).isOk =
      (build_grouped_lookup_params strategy num_lookup lookup_params 0 gtps).isOk := by
  unfold EmbeddingCollectionParam.constructWithStrategy
  cases hb : build_grouped_lookup_params strategy num_lookup lookup_params 0 gtps <;> rfl

theorem countP_groupsForTable_unique (num_lookup : Nat) (lookup_params : List LookupParam)
    (gid : Nat) (tp : GroupedTableParam) (l : Nat) (hl : l < num_lookup)
    (hsupp : combiner_supported (lookupCombiner lookup_params l) = true) :
    (groupsForTable DenseCompressionStrategy.Unique num_lookup lookup_params gid
        tp).countP (fun g => decide (l ∈ g.lookup_ids)) =
      if lookupTableId lookup_params l ∈ tp.table_ids then 1 else 0 := by
  simp only [groupsForTable, List.countP_append]
  by_cases htab : lookupTableId lookup_params l ∈ tp.table_ids
  · rw [if_pos htab]
    by_cases hcc : lookupCombiner lookup_params l = Combiner.Concat
    · have hins : l ∈ denseIdsOf lookup_params num_lookup tp.table_ids :=
        mem_denseIdsOf.2 ⟨hl, htab, hcc⟩
      have hdn : denseIdsOf lookup_params num_lookup tp.table_ids ≠ [] :=
        List.ne_nil_of_mem hins
      have hnotsp : l ∉ sparseIdsOf lookup_params num_lookup tp.table_ids := by
        intro hmem
        have := (mem_sparseIdsOf.1 hmem).2.2
        rw [hcc] at this
        simp [isSparseCombiner, Combiner.Concat, Combiner.Sum, Combiner.Average] at this
      rw [if_neg hdn, if_pos trivial]
      by_cases hsp : sparseIdsOf lookup_params num_lookup tp.table_ids = []
      · rw [if_pos hsp]
        simp [List.countP_cons, hins]
      · rw [if_neg hsp]
        simp [List.countP_cons, hins, hnotsp]
    · have hspc : isSparseCombiner (lookupCombiner lookup_params l) = true := by
        have := of_decide_eq_true hsupp
        simp only [isSparseCombiner, decide_eq_true_eq]
        tauto
      have hins : l ∈ sparseIdsOf lookup_params num_lookup tp.table_ids :=
        mem_sparseIdsOf.2 ⟨hl, htab, hspc⟩
      have hsp : sparseIdsOf lookup_params num_lookup tp.table_ids ≠ [] :=
        List.ne_nil_of_mem hins
      have hnotdn : l ∉ denseIdsOf lookup_params num_lookup tp.table_ids := by
        intro hmem
        exact hcc (mem_denseIdsOf.1 hmem).2.2
      rw [if_neg hsp]
      by_cases hdn : denseIdsOf lookup_params num_lookup tp.table_ids = []
      · rw [if_pos hdn]
        simp [List.countP_cons, hins]
      · rw [if_neg hdn, if_pos trivial]
        simp [List.countP_cons, hins, hnotdn]
  · rw [if_neg htab]
    have hnotsp : l ∉ sparseIdsOf lookup_params num_lookup tp.table_ids := by
      intro hmem; exact htab (mem_sparseIdsOf.1 hmem).2.1
    have hnotdn : l ∉ denseIdsOf lookup_params num_lookup tp.table_ids := by
      intro hmem; exact htab (mem_denseIdsOf.1 hmem).2.1
    by_cases hsp : sparseIdsOf lookup_params num_lookup tp.table_ids = [] <;>
      by_cases hdn : denseIdsOf lookup_params num_lookup tp.table_ids = [] <;>
        simp [hsp, hdn, List.countP_cons, hnotsp, hnotdn]

theorem countP_builtGroups_unique (num_lookup : Nat) (lookup_params : List LookupParam)
    (l : Nat) (hl : l < num_lookup)
    (hsupp : combiner_supported (lookupCombiner lookup_params l) = true) :
    ∀ (gtps : List GroupedTableParam) (gid : Nat),
      (builtGroups DenseCompressionStrategy.Unique num_lookup lookup_params gid
          gtps).countP (fun g => decide (l ∈ g.lookup_ids)) =
        gtps.countP (fun tp => decide (lookupTableId lookup_params l ∈ tp.table_ids))
  | [], _ => rfl
  | tp :: rest, gid => by
    rw [List.countP_cons]
    simp only [builtGroups, List.countP_append]
    rw [countP_groupsForTable_unique num_lookup lookup_params gid tp l hl hsupp,
      countP_builtGroups_unique num_lookup lookup_params l hl hsupp rest (gid + 1)]
    by_cases htab : lookupTableId lookup_params l ∈ tp.table_ids <;>
      simp [htab, Nat.add_comm]

theorem of_mem_groupsForTable {g : GroupedLookupParam}
    {strategy : DenseCompressionStrategy} {num_lookup : Nat}
    {lookup_params : List LookupParam} {gid : Nat} {tp : GroupedTableParam}
    (h : g ∈ groupsForTable strategy num_lookup lookup_params gid tp) :
    (g.grouped_table_idx = (gid : Int) ∨ g.grouped_table_idx = -1) ∧
      (g.lookup_ids = sparseIdsOf lookup_params num_lookup tp.table_ids ∨
        g.lookup_ids = denseIdsOf lookup_params num_lookup tp.table_ids) := by
  simp only [groupsForTable, List.mem_append] at h
  rcases h with h | h
  · split_ifs at h with h1
    · exact absurd h (List.not_mem_nil g)
    · rw [List.mem_singleton] at h
      subst h
      exact ⟨Or.inl rfl, Or.inl rfl⟩
  · split_ifs at h with h1 h2
    · exact absurd h (List.not_mem_nil g)
    · rw [List.mem_singleton] at h
      subst h
      exact ⟨Or.inl rfl, Or.inr rfl⟩
    · rcases List.mem_cons.1 h with h | h
      · subst h
        exact ⟨Or.inl rfl, Or.inr rfl⟩
      · rw [List.mem_singleton] at h
        subst h
        exact ⟨Or.inr rfl, Or.inr rfl⟩

theorem mem_builtGroups {g : GroupedLookupParam} {strategy : DenseCompressionStrategy}
    {num_lookup : Nat} {lookup_params : List LookupParam} :
    ∀ {gtps : List GroupedTableParam} {gid : Nat},
      g ∈ builtGroups strategy num_lookup lookup_params gid gtps →
      ∃ j, j < gtps.length ∧
        g ∈ groupsForTable strategy num_lookup lookup_params (gid + j)
          (gtps.getD j default)
  | [], gid, h => absurd h (List.not_mem_nil g)
  | tp :: rest, gid, h => by
    rcases List.mem_append.1 h with h | h
    · exact ⟨0, Nat.succ_pos _, by simpa using h⟩
    · obtain ⟨j, hj, hmem⟩ :=
        @mem_builtGroups g strategy num_lookup lookup_params rest (gid + 1) h
      refine ⟨j + 1, Nat.succ_lt_succ hj, ?_⟩
      have harith : gid + (j + 1) = gid + 1 + j := by omega
      rw [harith, List.getD_cons_succ]
      exact hmem

/-- C2: for every (device, group, lookup) triple, `has_table_shard` returns
true if and only if `lookup_id_in_group` holds for the (group, lookup) pair
and the shard-matrix entry for (device, table of the lookup) is nonzero. -/
theorem has_table_shard_iff (p : EmbeddingCollectionParam)
    (gpu_id grouped_id lookup_id : Nat) :
    p.has_table_shard gpu_id grouped_id lookup_id = true ↔
      p.lookup_id_in_group grouped_id lookup_id = true ∧
        (p.shard_matrix.getD gpu_id []).getD
          ((p.lookup_params.getD lookup_id default).table_id) 0 ≠ 0 := by
  simp [EmbeddingCollectionParam.has_table_shard, Bool.and_eq_true]

/-- C3: for a device holding a shard of a table, `get_table_shard_id` is
deterministic, returns as shard id the position of the device in the ascending
list of devices holding a shard of that table, and over all holding devices
the ranks form exactly the contiguous range `[0, num_shard)`. -/
theorem get_table_shard_id_rank (p : EmbeddingCollectionParam)
    (gpu_id table_id : Nat) (h : gpu_id ∈ shardGpus p table_id) :
    p.get_table_shard_id gpu_id table_id = p.get_table_shard_id gpu_id table_id ∧
    p.get_table_shard_id gpu_id table_id =
      some ((shardGpus p table_id).indexOf gpu_id, (shardGpus p table_id).length) ∧
    (shardGpus p table_id).map (fun d => (shardGpus p table_id).indexOf d) =
      List.range (shardGpus p table_id).length := by
  refine ⟨rfl, ?_, ?_⟩
  · simp [EmbeddingCollectionParam.get_table_shard_id, h]
  · have hnd : (shardGpus p table_id).Nodup :=
      List.Nodup.filter _ (List.nodup_range _)
    apply List.ext_getElem
    · simp
    · intro i h1 h2
      simp only [List.getElem_map, List.getElem_range]
      exact List.indexOf_getElem hnd i (by simpa using h1)

theorem get_table_shard_id_rank_witness :
    2 ∈ shardGpus shardRankParam 0 ∧
    (shardRankParam.get_table_shard_id 2 0 = shardRankParam.get_table_shard_id 2 0 ∧
     shardRankParam.get_table_shard_id 2 0 =
       some ((shardGpus shardRankParam 0).indexOf 2, (shardGpus shardRankParam 0).length) ∧
     (shardGpus shardRankParam 0).map (fun d => (shardGpus shardRankParam 0).indexOf d) =
       List.range (shardGpus shardRankParam 0).length) :=
  ⟨by decide, get_table_shard_id_rank shardRankParam 2 0 (by decide)⟩

/-- C4: for a device index inside the shard matrix and a boolean matrix entry
(the ShardMatrix data model), `get_table_shard_id` fails (the embedded
`HCTR_CHECK_HINT`, returning `none`) exactly when the device holds no shard
of the table, and never fails when it does. -/
theorem get_table_shard_id_none_iff (p : EmbeddingCollectionParam)
    (gpu_id table_id : Nat) (hgpu : gpu_id < p.shard_matrix.length)
    (hbool : (p.shard_matrix.getD gpu_id []).getD table_id 0 = 0 ∨
      (p.shard_matrix.getD gpu_id []).getD table_id 0 = 1) :
    (p.get_table_shard_id gpu_id table_id = none ↔
      (p.shard_matrix.getD gpu_id []).getD table_id 0 = 0) := by
  rcases hbool with h0 | h1
  · have hnot : gpu_id ∉ shardGpus p table_id := by
      simp only [shardGpus, List.mem_filter, decide_eq_true_eq]
      rintro ⟨-, hEq⟩
      rw [h0] at hEq
      exact absurd hEq (by decide)
    simp only [EmbeddingCollectionParam.get_table_shard_id, if_neg hnot]
    exact ⟨fun _ => h0, fun _ => trivial⟩
  · have hmem : gpu_id ∈ shardGpus p table_id := by
      simp only [shardGpus, List.mem_filter, List.mem_range, decide_eq_true_eq]
      exact ⟨hgpu, h1⟩
    simp only [EmbeddingCollectionParam.get_table_shard_id, if_pos hmem]
    constructor
    · intro hc
      exact absurd hc (by simp)
    · intro hc
      rw [hc] at h1
      exact absurd h1 (by decide)

theorem get_table_shard_id_none_iff_witness :
    1 < shardRankParam.shard_matrix.length ∧
    ((shardRankParam.shard_matrix.getD 1 []).getD 0 0 = 0 ∨
      (shardRankParam.shard_matrix.getD 1 []).getD 0 0 = 1) ∧
    (shardRankParam.get_table_shard_id 1 0 = none ↔
      (shardRankParam.shard_matrix.getD 1 []).getD 0 0 = 0) :=
  ⟨by decide, Or.inl (by decide),
    get_table_shard_id_none_iff shardRankParam 1 0 (by decide) (Or.inl (by decide))⟩

/-- C9: the two shard queries disagree on nonzero entries other than `1`: for
such an entry, `has_table_shard` counts the device as holding a shard, while
`get_table_shard_id` fails for that device, excludes it from the shard list,
and omits it from the `num_shard` that the queries of all other devices return. -/
theorem shard_query_divergence (p : EmbeddingCollectionParam)
    (gpu_id grouped_id lookup_id table_id : Nat)
    (htab : (p.lookup_params.getD lookup_id default).table_id = table_id)
    (hgrp : p.lookup_id_in_group grouped_id lookup_id = true)
    (hval0 : (p.shard_matrix.getD gpu_id []).getD table_id 0 ≠ 0)
    (hval1 : (p.shard_matrix.getD gpu_id []).getD table_id 0 ≠ 1) :
    p.has_table_shard gpu_id grouped_id lookup_id = true ∧
    p.get_table_shard_id gpu_id table_id = none ∧
    gpu_id ∉ shardGpus p table_id ∧
    ∀ d r m, p.get_table_shard_id d table_id = some (r, m) →
      m = (shardGpus p table_id).length := by
  have hnotmem : gpu_id ∉ shardGpus p table_id := by
    intro hmem
    exact hval1 (of_decide_eq_true (List.mem_filter.1 hmem).2)
  refine ⟨?_, ?_, hnotmem, ?_⟩
  · simp only [EmbeddingCollectionParam.has_table_shard, Bool.and_eq_true,
      decide_eq_true_eq]
    exact ⟨hgrp, by rw [htab]; exact hval0⟩
  · simp only [EmbeddingCollectionParam.get_table_shard_id, if_neg hnotmem]
  · intro d r m hsome
    by_cases hd : d ∈ shardGpus p table_id
    · simp only [EmbeddingCollectionParam.get_table_shard_id, if_pos hd,
        Option.some.injEq, Prod.mk.injEq] at hsome
      exact hsome.2.symm
    · simp [EmbeddingCollectionParam.get_table_shard_id, hd] at hsome

theorem shard_query_divergence_witness :
    (divergenceParam.lookup_params.getD 0 default).table_id = 0 ∧
    divergenceParam.lookup_id_in_group 0 0 = true ∧
    (divergenceParam.shard_matrix.getD 0 []).getD 0 0 ≠ 0 ∧
    (divergenceParam.shard_matrix.getD 0 []).getD 0 0 ≠ 1 ∧
    (divergenceParam.has_table_shard 0 0 0 = true ∧
     divergenceParam.get_table_shard_id 0 0 = none ∧
     0 ∉ shardGpus divergenceParam 0 ∧
     ∀ d r m, divergenceParam.get_table_shard_id d 0 = some (r, m) →
       m = (shardGpus divergenceParam 0).length) :=
  ⟨by decide, by decide, by decide, by decide,
    shard_query_divergence divergenceParam 0 0 0 0 (by decide) (by decide)
      (by decide) (by decide)⟩

/-- C5: constructing with the `CacheFrequent` dense-compression strategy from
one TableGroup holding 3 tables, 2 `Concat` lookups and 1 `Sum` lookup yields
exactly one `Sparse` group, one `InfrequentDense` group whose group index
equals the table-group index `0`, and one `FrequentDense` group whose group
index is `-1`, with the `Sum` lookup in the sparse group and both `Concat`
lookups in each dense group. -/
theorem cacheFrequent_scenario :
    (EmbeddingCollectionParam.constructWithStrategy
        DenseCompressionStrategy.CacheFrequent 3 3 cacheFrequentLookups
        [[1, 1, 1]] [⟨TablePlacementStrategy.ModelParallel, [0, 1, 2]⟩] 8
        EmbeddingLayout.FeatureMajor EmbeddingLayout.FeatureMajor
        SortStrategy.Radix KeysPreprocessStrategy.None AllreduceStrategy.Dense
        CommunicationStrategy.Uniform).map
      (fun p => p.grouped_lookup_params) =
    Except.ok
      [⟨0, TablePlacementStrategy.ModelParallel, [2], EmbeddingType.Sparse⟩,
       ⟨0, TablePlacementStrategy.ModelParallel, [0, 1],
        EmbeddingType.InfrequentDense⟩,
       ⟨-1, TablePlacementStrategy.ModelParallel, [0, 1],
        EmbeddingType.FrequentDense⟩] := by
  rfl

theorem not_groupCondition_iff (strategy : DenseCompressionStrategy)
    (num_lookup : Nat) (lookup_params : List LookupParam)
    (gtps : List GroupedTableParam) :
    ¬ groupCondition strategy num_lookup lookup_params gtps ↔
      ((∃ i ∈ List.range num_lookup, ∃ tp ∈ gtps,
          lookupTableId lookup_params i ∈ tp.table_ids ∧
          combiner_supported (lookupCombiner lookup_params i) = false) ∨
       ((strategy ≠ DenseCompressionStrategy.Unique ∧
         strategy ≠ DenseCompressionStrategy.CacheFrequent) ∧
        ∃ i ∈ List.range num_lookup, ∃ tp ∈ gtps,
          lookupTableId lookup_params i ∈ tp.table_ids ∧
          lookupCombiner lookup_params i = Combiner.Concat)) := by
  constructor
  · intro hnot
    unfold groupCondition at hnot
    push_neg at hnot
    obtain ⟨tp, htp, i, hi, ht, hbad⟩ := hnot
    by_cases hsupp : combiner_supported (lookupCombiner lookup_params i) = true
    · obtain ⟨hcc, hU, hCF⟩ := hbad hsupp
      exact Or.inr ⟨⟨hU, hCF⟩, i, List.mem_range.2 hi, tp, htp, ht, hcc⟩
    · exact Or.inl ⟨i, List.mem_range.2 hi, tp, htp, ht,
        Bool.eq_false_iff.2 hsupp⟩
  · rintro (⟨i, hi, tp, htp, ht, hbad⟩ | ⟨⟨hU, hCF⟩, i, hi, tp, htp, ht, hconc⟩) hcond
    · have := (hcond tp htp i (List.mem_range.1 hi) ht).1
      rw [this] at hbad
      exact absurd hbad (by decide)
    · rcases (hcond tp htp i (List.mem_range.1 hi) ht).2 hconc with h | h
      · exact hU h
      · exact hCF h

/-- C6: `EmbeddingCollectionParam` construction fails if and only if some
lookup whose table belongs to a table group uses a combiner other than
`Sum`, `Average` or `Concat`, or the dense-compression strategy is neither
`Unique` nor `CacheFrequent` while some table group has a dense (`Concat`)
lookup; the failure is the thrown configuration error of the constructor
(common.hpp:262, 280), embedded as the `Except.error` result. -/
theorem construct_fails_iff (strategy : DenseCompressionStrategy)
    (num_table num_lookup : Nat) (lookup_params : List LookupParam)
    (shard_matrix : List (List Int)) (gtps : List GroupedTableParam)
    (universal_batch_size : Nat) (il ol : EmbeddingLayout) (ss : SortStrategy)
    (kps : KeysPreprocessStrategy) (ars : AllreduceStrategy)
    (cs : CommunicationStrategy) :
    (EmbeddingCollectionParam.constructWithStrategy strategy num_table num_lookup
        lookup_params shard_matrix gtps universal_batch_size il ol ss kps ars
        cs).isOk = false ↔
      ((∃ i ∈ List.range num_lookup, ∃ tp ∈ gtps,
          lookupTableId lookup_params i ∈ tp.table_ids ∧
          combiner_supported (lookupCombiner lookup_params i) = false) ∨
       ((strategy ≠ DenseCompressionStrategy.Unique ∧
         strategy ≠ DenseCompressionStrategy.CacheFrequent) ∧
        ∃ i ∈ List.range num_lookup, ∃ tp ∈ gtps,
          lookupTableId lookup_params i ∈ tp.table_ids ∧
          lookupCombiner lookup_params i = Combiner.Concat)) := by
  rw [construct_isOk_eq, ← not_groupCondition_iff strategy num_lookup lookup_params gtps,
    ← build_isOk_iff_cond strategy num_lookup lookup_params gtps 0]
  cases (build_grouped_lookup_params strategy num_lookup lookup_params 0 gtps).isOk <;>
    simp

/-- C1 counterexample configuration: one `Sum` lookup on table `0` and an
empty table-group list, so no group can contain the lookup. -/
theorem construct_partition_not_total :
    (EmbeddingCollectionParam.construct 1 1 [⟨0, 0, Combiner.Sum, 1, 4⟩] [[1]]
        [] 4 EmbeddingLayout.FeatureMajor EmbeddingLayout.FeatureMajor
        SortStrategy.Radix KeysPreprocessStrategy.None AllreduceStrategy.Dense
        CommunicationStrategy.Uniform).isOk = true ∧
    (EmbeddingCollectionParam.construct 1 1 [⟨0, 0, Combiner.Sum, 1, 4⟩] [[1]]
        [] 4 EmbeddingLayout.FeatureMajor EmbeddingLayout.FeatureMajor
        SortStrategy.Radix KeysPreprocessStrategy.None AllreduceStrategy.Dense
        CommunicationStrategy.Uniform).map
      (fun p => p.grouped_lookup_params.countP
        (fun g => decide ((0 : Nat) ∈ g.lookup_ids))) = Except.ok 0 :=
  ⟨rfl, rfl⟩

/-- C1 (amended): for a successful construction, every lookup id below
`num_lookup` whose table id appears in the `table_ids` of exactly one
`GroupedTableParam` appears in the `lookup_ids` of exactly one produced
grouped lookup param. -/
theorem construct_partition_unique_group
    (num_table num_lookup : Nat) (lookup_params : List LookupParam)
    (shard_matrix : List (List Int)) (gtps : List GroupedTableParam)
    (universal_batch_size : Nat) (il ol : EmbeddingLayout) (ss : SortStrategy)
    (kps : KeysPreprocessStrategy) (ars : AllreduceStrategy)
    (cs : CommunicationStrategy) (l : Nat)
    (hok : (EmbeddingCollectionParam.construct num_table num_lookup lookup_params
        shard_matrix gtps universal_batch_size il ol ss kps ars cs).isOk = true)
    (hl : l < num_lookup)
    (huniq : gtps.countP
        (fun tp => decide (lookupTableId lookup_params l ∈ tp.table_ids)) = 1) :
    (EmbeddingCollectionParam.construct num_table num_lookup lookup_params
        shard_matrix gtps universal_batch_size il ol ss kps ars cs).map
      (fun p => p.grouped_lookup_params.countP
        (fun g => decide (l ∈ g.lookup_ids))) = Except.ok 1 := by
  have hok2 : (EmbeddingCollectionParam.constructWithStrategy
      DenseCompressionStrategy.Unique num_table num_lookup lookup_params
      shard_matrix gtps universal_batch_size il ol ss kps ars cs).isOk = true := hok
  rw [construct_isOk_eq] at hok2
  have hcond := (build_isOk_iff_cond DenseCompressionStrategy.Unique num_lookup
    lookup_params gtps 0).1 hok2
  have hval := build_ok_of_cond DenseCompressionStrategy.Unique num_lookup
    lookup_params gtps 0 hcond
  have hex : ∃ tp ∈ gtps,
      decide (lookupTableId lookup_params l ∈ tp.table_ids) = true :=
    List.countP_pos_iff.1 (by rw [huniq]; exact Nat.zero_lt_one)
  obtain ⟨tp, htp, hpt⟩ := hex
  have hsupp := (hcond tp htp l hl (of_decide_eq_true hpt)).1
  show (EmbeddingCollectionParam.constructWithStrategy
      DenseCompressionStrategy.Unique num_table num_lookup lookup_params
      shard_matrix gtps universal_batch_size il ol ss kps ars cs).map
    (fun p => p.grouped_lookup_params.countP
      (fun g => decide (l ∈ g.lookup_ids))) = Except.ok 1
  unfold EmbeddingCollectionParam.constructWithStrategy
  rw [hval]
  dsimp only [Except.map]
  rw [countP_builtGroups_unique num_lookup lookup_params l hl hsupp gtps 0, huniq]

theorem construct_partition_unique_group_witness :
    (EmbeddingCollectionParam.construct 2 2 partitionWitnessLookups [[1, 1]]
        partitionWitnessGroups 4 EmbeddingLayout.FeatureMajor
        EmbeddingLayout.FeatureMajor SortStrategy.Radix
        KeysPreprocessStrategy.None AllreduceStrategy.Dense
        CommunicationStrategy.Uniform).isOk = true ∧
    1 < 2 ∧
    partitionWitnessGroups.countP
      (fun tp => decide (lookupTableId partitionWitnessLookups 1 ∈ tp.table_ids)) = 1 ∧
    (EmbeddingCollectionParam.construct 2 2 partitionWitnessLookups [[1, 1]]
        partitionWitnessGroups 4 EmbeddingLayout.FeatureMajor
        EmbeddingLayout.FeatureMajor SortStrategy.Radix
        KeysPreprocessStrategy.None AllreduceStrategy.Dense
        CommunicationStrategy.Uniform).map
      (fun p => p.grouped_lookup_params.countP
        (fun g => decide ((1 : Nat) ∈ g.lookup_ids))) = Except.ok 1 :=
  ⟨rfl, by decide, by decide,
    construct_partition_unique_group 2 2 partitionWitnessLookups [[1, 1]]
      partitionWitnessGroups 4 EmbeddingLayout.FeatureMajor
      EmbeddingLayout.FeatureMajor SortStrategy.Radix KeysPreprocessStrategy.None
      AllreduceStrategy.Dense CommunicationStrategy.Uniform 1 rfl (by decide)
      (by decide)⟩

/-- C8 counterexample configuration: the single table group holds table `0`,
but the only lookup uses table `1`, so the group matches zero lookups;
construction nevertheless succeeds and simply emits no group. -/
theorem empty_table_group_not_rejected :
    (EmbeddingCollectionParam.construct 2 1 [⟨0, 1, Combiner.Sum, 1, 4⟩]
        [[1, 1]] [⟨TablePlacementStrategy.DataParallel, [0]⟩] 4
        EmbeddingLayout.FeatureMajor EmbeddingLayout.FeatureMajor
        SortStrategy.Radix KeysPreprocessStrategy.None AllreduceStrategy.Dense
        CommunicationStrategy.Uniform).isOk = true ∧
    (EmbeddingCollectionParam.construct 2 1 [⟨0, 1, Combiner.Sum, 1, 4⟩]
        [[1, 1]] [⟨TablePlacementStrategy.DataParallel, [0]⟩] 4
        EmbeddingLayout.FeatureMajor EmbeddingLayout.FeatureMajor
        SortStrategy.Radix KeysPreprocessStrategy.None AllreduceStrategy.Dense
        CommunicationStrategy.Uniform).map (fun p => p.grouped_lookup_params) =
      Except.ok [] :=
  ⟨rfl, rfl⟩

/-- C8 (amended): a `GroupedTableParam` none of whose tables is referenced by
any lookup is silently skipped: construction (otherwise valid) succeeds, and
no produced grouped lookup param carries the index of that table group. -/
theorem empty_table_group_skipped
    (num_table num_lookup : Nat) (lookup_params : List LookupParam)
    (shard_matrix : List (List Int)) (gtps : List GroupedTableParam)
    (universal_batch_size : Nat) (il ol : EmbeddingLayout) (ss : SortStrategy)
    (kps : KeysPreprocessStrategy) (ars : AllreduceStrategy)
    (cs : CommunicationStrategy) (gid : Nat)
    (hempty : ∀ i, i < num_lookup →
      lookupTableId lookup_params i ∉ (gtps.getD gid default).table_ids)
    (hsupp : ∀ tp ∈ gtps, ∀ i, i < num_lookup →
      lookupTableId lookup_params i ∈ tp.table_ids →
      combiner_supported (lookupCombiner lookup_params i) = true) :
    (EmbeddingCollectionParam.construct num_table num_lookup lookup_params
        shard_matrix gtps universal_batch_size il ol ss kps ars cs).isOk = true ∧
    ∀ p, EmbeddingCollectionParam.construct num_table num_lookup lookup_params
        shard_matrix gtps universal_batch_size il ol ss kps ars cs =
        Except.ok p →
      ∀ g ∈ p.grouped_lookup_params, g.grouped_table_idx ≠ (gid : Int) := by
  have hcond : groupCondition DenseCompressionStrategy.Unique num_lookup
      lookup_params gtps :=
    fun tp htp i hi ht => ⟨hsupp tp htp i hi ht, fun _ => Or.inl rfl⟩
  have hval := build_ok_of_cond DenseCompressionStrategy.Unique num_lookup
    lookup_params gtps 0 hcond
  constructor
  · show (EmbeddingCollectionParam.constructWithStrategy
        DenseCompressionStrategy.Unique num_table num_lookup lookup_params
        shard_matrix gtps universal_batch_size il ol ss kps ars cs).isOk = true
    rw [construct_isOk_eq, hval]
    rfl
  · intro p hp g hg
    have hbuild := construct_ok_grouped DenseCompressionStrategy.Unique num_table
      num_lookup lookup_params shard_matrix gtps universal_batch_size il ol ss
      kps ars cs p hp
    have hglp : p.grouped_lookup_params =
        builtGroups DenseCompressionStrategy.Unique num_lookup lookup_params
          0 gtps := by
      rw [hbuild] at hval
      exact Except.ok.inj hval
    rw [hglp] at hg
    obtain ⟨j, hj, hmem⟩ := mem_builtGroups hg
    rcases (of_mem_groupsForTable hmem).1 with hidx | hidx
    · intro hEq
      rw [hidx] at hEq
      have hjg : j = gid := by omega
      subst hjg
      have hsp : sparseIdsOf lookup_params num_lookup
          (gtps.getD j default).table_ids = [] := by
        apply List.filter_eq_nil_iff.2
        intro a ha
        simp only [sparsePred, Bool.and_eq_true, decide_eq_true_eq, not_and]
        intro hmem2
        exact absurd hmem2 (hempty a (List.mem_range.1 ha))
      have hdn : denseIdsOf lookup_params num_lookup
          (gtps.getD j default).table_ids = [] := by
        apply List.filter_eq_nil_iff.2
        intro a ha
        simp only [densePred, Bool.and_eq_true, decide_eq_true_eq, not_and]
        intro hmem2
        exact absurd hmem2 (hempty a (List.mem_range.1 ha))
      rw [groupsForTable, hsp, hdn] at hmem
      simp at hmem
    · intro hEq
      rw [hidx] at hEq
      omega

theorem empty_table_group_skipped_witness :
    (∀ i, i < 1 →
      lookupTableId [⟨0, 0, Combiner.Sum, 1, 4⟩] i ∉
        (emptyGroupWitnessGroups.getD 0 default).table_ids) ∧
    (∀ tp ∈ emptyGroupWitnessGroups, ∀ i, i < 1 →
      lookupTableId [⟨0, 0, Combiner.Sum, 1, 4⟩] i ∈ tp.table_ids →
      combiner_supported (lookupCombiner [⟨0, 0, Combiner.Sum, 1, 4⟩] i) = true) ∧
    ((EmbeddingCollectionParam.construct 1 1 [⟨0, 0, Combiner.Sum, 1, 4⟩] [[1]]
        emptyGroupWitnessGroups 4 EmbeddingLayout.FeatureMajor
        EmbeddingLayout.FeatureMajor SortStrategy.Radix
        KeysPreprocessStrategy.None AllreduceStrategy.Dense
        CommunicationStrategy.Uniform).isOk = true ∧
     ∀ p, EmbeddingCollectionParam.construct 1 1 [⟨0, 0, Combiner.Sum, 1, 4⟩]
        [[1]] emptyGroupWitnessGroups 4 EmbeddingLayout.FeatureMajor
        EmbeddingLayout.FeatureMajor SortStrategy.Radix
        KeysPreprocessStrategy.None AllreduceStrategy.Dense
        CommunicationStrategy.Uniform = Except.ok p →
      ∀ g ∈ p.grouped_lookup_params, g.grouped_table_idx ≠ (0 : Int)) :=
  ⟨by decide, by decide,
    empty_table_group_skipped 1 1 [⟨0, 0, Combiner.Sum, 1, 4⟩] [[1]]
      emptyGroupWitnessGroups 4 EmbeddingLayout.FeatureMajor
      EmbeddingLayout.FeatureMajor SortStrategy.Radix KeysPreprocessStrategy.None
      AllreduceStrategy.Dense CommunicationStrategy.Uniform 0 (by decide)
      (by decide)⟩

/-- C10: a lookup whose table id appears in no `GroupedTableParam` is silently
excluded, whatever its combiner value: construction (otherwise valid)
succeeds, and the lookup id appears in the `lookup_ids` of no produced
grouped lookup param. -/
theorem ungrouped_lookup_skipped
    (num_table num_lookup : Nat) (lookup_params : List LookupParam)
    (shard_matrix : List (List Int)) (gtps : List GroupedTableParam)
    (universal_batch_size : Nat) (il ol : EmbeddingLayout) (ss : SortStrategy)
    (kps : KeysPreprocessStrategy) (ars : AllreduceStrategy)
    (cs : CommunicationStrategy) (l : Nat)
    (hnone : ∀ tp ∈ gtps, lookupTableId lookup_params l ∉ tp.table_ids)
    (hsupp : ∀ tp ∈ gtps, ∀ i, i < num_lookup →
      lookupTableId lookup_params i ∈ tp.table_ids →
      combiner_supported (lookupCombiner lookup_params i) = true) :
    (EmbeddingCollectionParam.construct num_table num_lookup lookup_params
        shard_matrix gtps universal_batch_size il ol ss kps ars cs).isOk = true ∧
    ∀ p, EmbeddingCollectionParam.construct num_table num_lookup lookup_params
        shard_matrix gtps universal_batch_size il ol ss kps ars cs =
        Except.ok p →
      ∀ g ∈ p.grouped_lookup_params, l ∉ g.lookup_ids := by
  have hcond : groupCondition DenseCompressionStrategy.Unique num_lookup
      lookup_params gtps :=
    fun tp htp i hi ht => ⟨hsupp tp htp i hi ht, fun _ => Or.inl rfl⟩
  have hval := build_ok_of_cond DenseCompressionStrategy.Unique num_lookup
    lookup_params gtps 0 hcond
  constructor
  · show (EmbeddingCollectionParam.constructWithStrategy
        DenseCompressionStrategy.Unique num_table num_lookup lookup_params
        shard_matrix gtps universal_batch_size il ol ss kps ars cs).isOk = true
    rw [construct_isOk_eq, hval]
    rfl
  · intro p hp g hg
    have hbuild := construct_ok_grouped DenseCompressionStrategy.Unique num_table
      num_lookup lookup_params shard_matrix gtps universal_batch_size il ol ss
      kps ars cs p hp
    have hglp : p.grouped_lookup_params =
        builtGroups DenseCompressionStrategy.Unique num_lookup lookup_params
          0 gtps := by
      rw [hbuild] at hval
      exact Except.ok.inj hval
    rw [hglp] at hg
    obtain ⟨j, hj, hmem⟩ := mem_builtGroups hg
    have htpmem : gtps.getD j default ∈ gtps := by
      rw [List.getD_eq_getElem gtps default hj]
      exact List.getElem_mem hj
    intro hlmem
    rcases (of_mem_groupsForTable hmem).2 with hids | hids
    · rw [hids] at hlmem
      exact hnone (gtps.getD j default) htpmem (mem_sparseIdsOf.1 hlmem).2.1
    · rw [hids] at hlmem
      exact hnone (gtps.getD j default) htpmem (mem_denseIdsOf.1 hlmem).2.1

theorem ungrouped_lookup_skipped_witness :
    (∀ tp ∈ ([⟨TablePlacementStrategy.DataParallel, [0]⟩] :
        List GroupedTableParam),
      lookupTableId [⟨0, 5, (7 : Int), 1, 4⟩] 0 ∉ tp.table_ids) ∧
    (∀ tp ∈ ([⟨TablePlacementStrategy.DataParallel, [0]⟩] :
        List GroupedTableParam), ∀ i, i < 1 →
      lookupTableId [⟨0, 5, (7 : Int), 1, 4⟩] i ∈ tp.table_ids →
      combiner_supported (lookupCombiner [⟨0, 5, (7 : Int), 1, 4⟩] i) = true) ∧
    ((EmbeddingCollectionParam.construct 1 1 [⟨0, 5, (7 : Int), 1, 4⟩] [[1]]
        [⟨TablePlacementStrategy.DataParallel, [0]⟩] 4
        EmbeddingLayout.FeatureMajor EmbeddingLayout.FeatureMajor
        SortStrategy.Radix KeysPreprocessStrategy.None AllreduceStrategy.Dense
        CommunicationStrategy.Uniform).isOk = true ∧
     ∀ p, EmbeddingCollectionParam.construct 1 1 [⟨0, 5, (7 : Int), 1, 4⟩]
        [[1]] [⟨TablePlacementStrategy.DataParallel, [0]⟩] 4
        EmbeddingLayout.FeatureMajor EmbeddingLayout.FeatureMajor
        SortStrategy.Radix KeysPreprocessStrategy.None AllreduceStrategy.Dense
        CommunicationStrategy.Uniform = Except.ok p →
      ∀ g ∈ p.grouped_lookup_params, (0 : Nat) ∉ g.lookup_ids) :=
  ⟨by decide, by decide,
    ungrouped_lookup_skipped 1 1 [⟨0, 5, (7 : Int), 1, 4⟩] [[1]]
      [⟨TablePlacementStrategy.DataParallel, [0]⟩] 4
      EmbeddingLayout.FeatureMajor EmbeddingLayout.FeatureMajor
      SortStrategy.Radix KeysPreprocessStrategy.None AllreduceStrategy.Dense
      CommunicationStrategy.Uniform 0 (by decide) (by decide)⟩

theorem initSpec_sorted_unique_toFinset (group_table_ids : List Nat)
    (table_ev_size : Nat → Nat) :
    (WgradAttr.initSpec group_table_ids table_ev_size).sorted_unique_table_ids.toFinset =
      group_table_ids.toFinset := by
  have hlen : group_table_ids.length ≤ (List.range group_table_ids.length).length := by
    simp
  have hzip : ((List.range group_table_ids.length).zip group_table_ids).map Prod.snd =
      group_table_ids := List.map_snd_zip _ _ hlen
  have hperm : ((((List.range group_table_ids.length).zip group_table_ids).mergeSort
      (fun a b => decide (a.2 ≤ b.2))).map Prod.snd).Perm group_table_ids := by
    have hp := List.Perm.map Prod.snd
      (List.mergeSort_perm ((List.range group_table_ids.length).zip group_table_ids)
        (fun a b => decide (a.2 ≤ b.2)))
    rw [hzip] at hp
    exact hp
  have hdedup : ∀ l : List Nat, l.dedup.toFinset = l.toFinset := by
    intro l
    ext a
    simp [List.mem_toFinset, List.mem_dedup]
  show (((((List.range group_table_ids.length).zip group_table_ids).mergeSort
      (fun a b => decide (a.2 ≤ b.2))).map Prod.snd).dedup).toFinset =
    group_table_ids.toFinset
  rw [hdedup]
  exact List.toFinset_eq_of_perm _ _ hperm

/-- C7: `get_unique_table_ids` returns the plain per-lookup mapping exactly
when `num_table` equals `num_lookup` and the sorted deduplicated list
otherwise, and the returned list always denotes the same set of table ids as
the deduplicated list, so the shortcut is correctness-preserving. -/
theorem get_unique_table_ids_spec (group_table_ids : List Nat)
    (table_ev_size : Nat → Nat) (w : WgradAttr)
    (hw : w = WgradAttr.initSpec group_table_ids table_ev_size) :
    (w.num_table = w.num_lookup →
      w.get_unique_table_ids = w.lookup_id_to_table_ids) ∧
    (w.num_table ≠ w.num_lookup →
      w.get_unique_table_ids = w.sorted_unique_table_ids) ∧
    w.get_unique_table_ids.toFinset = w.sorted_unique_table_ids.toFinset := by
  refine ⟨fun h => ?_, fun h => ?_, ?_⟩
  · rw [WgradAttr.get_unique_table_ids, if_pos h]
  · rw [WgradAttr.get_unique_table_ids, if_neg h]
  · rw [WgradAttr.get_unique_table_ids]
    by_cases h : w.num_table = w.num_lookup
    · rw [if_pos h, hw]
      have h2 := initSpec_sorted_unique_toFinset group_table_ids table_ev_size
      rw [h2]
      rfl
    · rw [if_neg h]

theorem get_unique_table_ids_spec_witness :
    ((WgradAttr.initSpec [5, 5, 7] (fun _ => 4)) =
      WgradAttr.initSpec [5, 5, 7] (fun _ => 4)) ∧
    (((WgradAttr.initSpec [5, 5, 7] (fun _ => 4)).num_table =
        (WgradAttr.initSpec [5, 5, 7] (fun _ => 4)).num_lookup →
      (WgradAttr.initSpec [5, 5, 7] (fun _ => 4)).get_unique_table_ids =
        (WgradAttr.initSpec [5, 5, 7] (fun _ => 4)).lookup_id_to_table_ids) ∧
     ((WgradAttr.initSpec [5, 5, 7] (fun _ => 4)).num_table ≠
        (WgradAttr.initSpec [5, 5, 7] (fun _ => 4)).num_lookup →
      (WgradAttr.initSpec [5, 5, 7] (fun _ => 4)).get_unique_table_ids =
        (WgradAttr.initSpec [5, 5, 7] (fun _ => 4)).sorted_unique_table_ids) ∧
     (WgradAttr.initSpec [5, 5, 7] (fun _ => 4)).get_unique_table_ids.toFinset =
       (WgradAttr.initSpec [5, 5, 7] (fun _ => 4)).sorted_unique_table_ids.toFinset) :=
  ⟨rfl, get_unique_table_ids_spec [5, 5, 7] (fun _ => 4) _ rfl⟩
end embedding
